import Mathlib

/-!
Verification of the chatfuse dynamic loopback filesystem core
(`chatfuse/dynamic_operations.py` and `chatfuse/subpath_updater.py`).

The development shallowly embeds the two Python modules:

* Path-string manipulation (`os.path.normpath`, `os.path.join`,
  `str.lstrip`, `os.path.split`, `os.path.splitext`, `str.strip`) is
  translated faithfully from CPython's `posixpath` implementations,
  working over `List Char`.
* `DynamicOperations` becomes a record `Engine` of mount state plus one
  Lean function per FUSE method.  Underlying `os.*` calls are modelled by
  an `Oracle` record supplying their results, and every method returns,
  next to its `Except Errno` result, the list of underlying calls it
  performed (`List FSCall`), so that "the underlying operation was not
  performed" is expressible as an empty call trace.
* The subpath setter and the `SubpathUpdater` listener loop are embedded
  as explicit state-passing functions; the concurrency-sensitive parts
  (how many times an operation reads the shared `_subpath` attribute, the
  two separate attribute assignments inside the setter, and the blocking
  FIFO open inside the listener) are given small-step models in which
  each Python attribute access / assignment / blocking call is one
  atomic step.
-/

set_option autoImplicit false

/-! ## Python path primitives (translated from CPython posixpath) -/

/-- Split a character list on a separator character, mirroring Python
`str.split(sep)`: `"".split("/") == [""]`, `"/a/".split("/") == ["", "a", ""]`. -/
def splitOnChar (c : Char) : List Char → List (List Char)
  | [] => [[]]
  | x :: xs =>
    match splitOnChar c xs with
    | [] => [[]]
    | h :: t => if x = c then [] :: h :: t else (x :: h) :: t

/-- Join path components with a single slash, mirroring `sep.join(comps)`. -/
def joinComps : List (List Char) → List Char
  | [] => []
  | [c] => c
  | c :: rest => c ++ '/' :: joinComps rest

/-- Character-list core of CPython `posixpath.normpath`:
collapse empty and `.` components, resolve `..` where possible, and keep
the leading-slash count (1, or exactly 2 for a `//`-prefixed path). -/
def normChars (cs : List Char) : List Char :=
  if cs = [] then ['.']
  else
    let leading := (cs.takeWhile (fun c => c = '/')).length
    let initialSlashes : Nat := if leading = 0 then 0 else if leading = 2 then 2 else 1
    let comps := splitOnChar '/' cs
    let newComps := comps.foldl
      (fun acc comp =>
        if comp = [] ∨ comp = ['.'] then acc
        else if comp ≠ ['.', '.'] ∨ (initialSlashes = 0 ∧ acc = []) ∨
            (acc ≠ [] ∧ acc.getLast? = some ['.', '.']) then acc ++ [comp]
        else if acc ≠ [] then acc.dropLast
        else acc)
      []
    let joined := List.replicate initialSlashes '/' ++ joinComps newComps
    if joined = [] then ['.'] else joined

/-- `os.path.normpath` for POSIX paths. -/
def normpath (p : String) : String :=
  String.mk (normChars p.data)

/-- Two-argument `os.path.join` for POSIX paths. -/
def joinPath (a b : String) : String :=
  if b.data.take 1 = ['/'] then b
  else if a.data = [] ∨ a.data.getLast? = some '/' then String.mk (a.data ++ b.data)
  else String.mk (a.data ++ '/' :: b.data)

/-- Python `path.lstrip("/")`: drop every leading slash. -/
def lstripSlash (p : String) : String :=
  String.mk (p.data.dropWhile (fun c => c = '/'))

/-- Python whitespace for `str.strip()` (ASCII subset actually produced by
line-oriented pipe reads). -/
def isPySpace (c : Char) : Bool :=
  c = ' ' ∨ c = '\t' ∨ c = '\n' ∨ c = '\r' ∨ c = '\x0b' ∨ c = '\x0c'

/-- Python `str.strip()`: drop whitespace from both ends. -/
def pyStrip (s : String) : String :=
  String.mk (((s.data.dropWhile isPySpace).reverse.dropWhile isPySpace).reverse)

/-- Index of the last occurrence of a character, Python `str.rfind`. -/
def rfindIdx (c : Char) (cs : List Char) : Option Nat :=
  ((cs.enum.filter (fun p => p.2 = c)).getLast?).map (fun p => p.1)

/-- `os.path.split` for POSIX paths: split after the last slash, stripping
trailing slashes from the head unless the head is all slashes. -/
def pySplit (p : String) : String × String :=
  let cs := p.data
  let i := match rfindIdx '/' cs with
    | some j => j + 1
    | none => 0
  let head := cs.take i
  let tail := cs.drop i
  let head2 :=
    if head ≠ [] ∧ ¬ (head.all (fun c => c = '/')) then
      ((head.reverse.dropWhile (fun c => c = '/'))).reverse
    else head
  (String.mk head2, String.mk tail)

/-- `os.path.splitext` for POSIX paths: split off the extension at the last
dot, provided it lies after the last slash and the file name does not
consist solely of leading dots up to it. -/
def pySplitext (p : String) : String × String :=
  let cs := p.data
  let sepIndex : Int := match rfindIdx '/' cs with
    | some j => (j : Int)
    | none => -1
  let dotIndex : Int := match rfindIdx '.' cs with
    | some j => (j : Int)
    | none => -1
  if sepIndex < dotIndex then
    let fStart := (sepIndex + 1).toNat
    let d := dotIndex.toNat
    if ((cs.drop fStart).take (d - fStart)).any (fun ch => ch ≠ '.') then
      (String.mk (cs.take d), String.mk (cs.drop d))
    else (p, "")
  else (p, "")

example : normpath "" = "." := by decide
example : normpath "a//b/./c/../d" = "a/b/d" := by decide
example : normpath "/a/" = "/a" := by decide
example : normpath "//a" = "//a" := by decide
example : normpath "///a" = "/a" := by decide
example : normpath "../a" = "../a" := by decide
example : normpath "/../a" = "/a" := by decide
example : joinPath "/data" "sub" = "/data/sub" := by decide
example : joinPath "/data/" "sub" = "/data/sub" := by decide
example : joinPath "/data" "/abs" = "/abs" := by decide
example : joinPath "" "x" = "x" := by decide
example : lstripSlash "//a/b" = "a/b" := by decide
example : pyStrip "  conversations/42/ \n" = "conversations/42/" := by decide
example : pySplit "/data/s/a.txt" = ("/data/s", "a.txt") := by decide
example : pySplit "a.txt" = ("", "a.txt") := by decide
example : pySplitext "a.txt" = ("a", ".txt") := by decide
example : pySplitext "archive.tar.gz" = ("archive.tar", ".gz") := by decide
example : pySplitext ".bashrc" = (".bashrc", "") := by decide
example : pySplitext "noext" = ("noext", "") := by decide

/-! ## Data model of `DynamicOperations` (dynamic_operations.py) -/

/-- POSIX error numbers appearing in the engine, plus a catch-all. -/
inductive Errno where
  | ENOENT
  | EACCES
  | EEXIST
  | EPERM
  | ENOTEMPTY
  | other (n : Nat)
deriving DecidableEq, Repr

/-- The stat fields `DynamicOperations.getattr` copies out of `os.lstat`. -/
structure Stat where
  st_atime : Int
  st_ctime : Int
  st_gid : Int
  st_mode : Int
  st_mtime : Int
  st_nlink : Int
  st_size : Int
  st_uid : Int
deriving DecidableEq, Repr

/-- The statvfs fields `DynamicOperations.statfs` copies out of `os.statvfs`. -/
structure StatVfs where
  f_bavail : Int
  f_bfree : Int
  f_blocks : Int
  f_bsize : Int
  f_favail : Int
  f_ffree : Int
  f_files : Int
  f_flag : Int
  f_frsize : Int
  f_namemax : Int
deriving DecidableEq, Repr

/-- One underlying `os.*` filesystem call, as recorded in an operation's
effect trace.  An operation whose trace is `[]` performed no underlying
filesystem call. -/
inductive FSCall where
  | lstatC (p : String)
  | accessC (p : String) (mode : Int)
  | chmodC (p : String) (mode : Int)
  | chownC (p : String) (uid gid : Int)
  | openC (p : String) (flags : Int)
  | openCreateC (p : String) (mode : Int)
  | lseekC (fh offset : Int)
  | readC (fh size : Int)
  | writeC (fh : Int) (data : List Nat)
  | readlinkC (p : String)
  | renameC (src dst : String)
  | linkC (src dst : String)
  | symlinkC (src dst : String)
  | unlinkC (p : String)
  | rmdirC (p : String)
  | truncateC (p : String) (length : Int)
  | utimeC (p : String) (times : Option (Int × Int))
  | statvfsC (p : String)
  | listdirC (p : String)
  | mkdirC (p : String) (mode : Int)
  | mknodC (p : String) (mode dev : Int)
deriving DecidableEq, Repr

/-- Results of the underlying `os.*` calls (the backing local filesystem),
plus the `datetime.now().strftime` timestamp used by
`_generate_unique_name`.  `Except.error e` models the call raising an
`OSError` with `errno = e`. -/
structure Oracle where
  lstat : String → Except Errno Stat
  accessOk : String → Int → Bool
  chmod : String → Int → Except Errno Unit
  chown : String → Int → Int → Except Errno Unit
  osOpen : String → Int → Except Errno Int
  openCreate : String → Int → Except Errno Int
  readBytes : Int → Int → Int → Except Errno (List Nat)
  writeBytes : Int → List Nat → Int → Except Errno Int
  readlinkR : String → Except Errno String
  renameR : String → String → Except Errno Unit
  linkR : String → String → Except Errno Unit
  symlinkR : String → String → Except Errno Unit
  unlinkR : String → Except Errno Unit
  rmdirR : String → Except Errno Unit
  truncateR : String → Int → Except Errno Unit
  utimeR : String → Option (Int × Int) → Except Errno Unit
  statvfsR : String → Except Errno StatVfs
  listdir : String → Except Errno (List String)
  pathExists : String → Bool
  mkdirR : String → Int → Except Errno Unit
  mknodR : String → Int → Int → Except Errno Unit
  nowTimestamp : String

/-- Mount state of `DynamicOperations` as seen by a single operation: one
consistent value of every attribute (`root`, `_subpath`, the two flags and
the injected `is_path_hidden` predicate). -/
structure Engine where
  root : String
  subpath : String
  is_path_hidden : String → Bool
  prevent_hiding_root_path : Bool
  prevent_hidden_path_conflicts : Bool

/-- `DynamicOperations.mountpath`: `os.path.join(self.root, self.subpath)`. -/
def mountpath (e : Engine) : String :=
  joinPath e.root e.subpath

/-- `DynamicOperations._to_absolute_path`:
`os.path.normpath(os.path.join(self.mountpath, path.lstrip("/")))`. -/
def to_absolute_path (e : Engine) (path : String) : String :=
  normpath (joinPath (mountpath e) (lstripSlash path))

/-- `DynamicOperations._enforce_path_hiding`: raise `ENOENT` when the path is
hidden, unless `prevent_hiding_root_path` is set and the path equals the
normalized mount path. -/
def enforce_path_hiding (e : Engine) (path : String) : Option Errno :=
  if (!(e.prevent_hiding_root_path && (path == normpath (mountpath e))))
      && e.is_path_hidden path then
    some Errno.ENOENT
  else
    none

/-- `DynamicOperations._generate_unique_name`: append `_<timestamp>` to the
base name, re-appending the extension when one is present. -/
def generate_unique_name (path : String) (timestamp : String) : String :=
  let sp := pySplit path
  let se := pySplitext sp.2
  let new_name := se.1 ++ "_" ++ timestamp
  let new_name := if se.2 ≠ "" then new_name ++ se.2 else new_name
  joinPath sp.1 new_name

/-- `DynamicOperations._handle_hidden_path_conflict`: when the flag is set
and a hidden entry physically exists at `path`, rename it to a generated
unique name; an `OSError` with `errno == ENOENT` is swallowed, any other
`OSError` propagates. -/
def handle_hidden_path_conflict (e : Engine) (o : Oracle) (path : String) :
    Except Errno Unit × List FSCall :=
  if e.prevent_hidden_path_conflicts && o.pathExists path && e.is_path_hidden path then
    let unique_path := generate_unique_name path o.nowTimestamp
    match o.renameR path unique_path with
    | Except.ok _ => (Except.ok (), [FSCall.renameC path unique_path])
    | Except.error err =>
      if err = Errno.ENOENT then (Except.ok (), [FSCall.renameC path unique_path])
      else (Except.error err, [FSCall.renameC path unique_path])
  else (Except.ok (), [])

/-! ### The FUSE methods

Each `...Op` function is one method of `DynamicOperations`, taking the
already-resolved backing path (`__call__` resolves the first path argument
through `_to_absolute_path` before dispatching).  The result pairs the
method's return/raise behaviour with the trace of underlying `os.*` calls. -/

/-- `DynamicOperations.access`. -/
def accessOp (e : Engine) (o : Oracle) (path : String) (mode : Int) :
    Except Errno Unit × List FSCall :=
  match enforce_path_hiding e path with
  | some err => (Except.error err, [])
  | none =>
    if !(o.accessOk path mode) then (Except.error Errno.EACCES, [FSCall.accessC path mode])
    else (Except.ok (), [FSCall.accessC path mode])

/-- `DynamicOperations.chmod`. -/
def chmodOp (e : Engine) (o : Oracle) (path : String) (mode : Int) :
    Except Errno Unit × List FSCall :=
  match enforce_path_hiding e path with
  | some err => (Except.error err, [])
  | none => (o.chmod path mode, [FSCall.chmodC path mode])

/-- `DynamicOperations.chown`. -/
def chownOp (e : Engine) (o : Oracle) (path : String) (uid gid : Int) :
    Except Errno Unit × List FSCall :=
  match enforce_path_hiding e path with
  | some err => (Except.error err, [])
  | none => (o.chown path uid gid, [FSCall.chownC path uid gid])

/-- `DynamicOperations.create`: resolve a hidden-path conflict first, then
`os.open(path, O_WRONLY|O_CREAT|O_TRUNC, mode)`. -/
def createOp (e : Engine) (o : Oracle) (path : String) (mode : Int) :
    Except Errno Int × List FSCall :=
  match handle_hidden_path_conflict e o path with
  | (Except.error err, tr) => (Except.error err, tr)
  | (Except.ok _, tr) => (o.openCreate path mode, tr ++ [FSCall.openCreateC path mode])

/-- `DynamicOperations.getattr`: the stat-field dictionary from `os.lstat`. -/
def getattrOp (e : Engine) (o : Oracle) (path : String) :
    Except Errno Stat × List FSCall :=
  match enforce_path_hiding e path with
  | some err => (Except.error err, [])
  | none => (o.lstat path, [FSCall.lstatC path])

/-- `DynamicOperations.link`: `link(target, source)` resolves the source and
visibility-checks it, then calls `os.link(abs_source, target)`. -/
def linkOp (e : Engine) (o : Oracle) (target source : String) :
    Except Errno Unit × List FSCall :=
  let abs_source := to_absolute_path e source
  match enforce_path_hiding e abs_source with
  | some err => (Except.error err, [])
  | none => (o.linkR abs_source target, [FSCall.linkC abs_source target])

/-- `DynamicOperations.mkdir`. -/
def mkdirOp (e : Engine) (o : Oracle) (path : String) (mode : Int) :
    Except Errno Unit × List FSCall :=
  match handle_hidden_path_conflict e o path with
  | (Except.error err, tr) => (Except.error err, tr)
  | (Except.ok _, tr) => (o.mkdirR path mode, tr ++ [FSCall.mkdirC path mode])

/-- `DynamicOperations.mknod`. -/
def mknodOp (e : Engine) (o : Oracle) (path : String) (mode dev : Int) :
    Except Errno Unit × List FSCall :=
  match handle_hidden_path_conflict e o path with
  | (Except.error err, tr) => (Except.error err, tr)
  | (Except.ok _, tr) => (o.mknodR path mode dev, tr ++ [FSCall.mknodC path mode dev])

/-- `DynamicOperations.open`. -/
def openOp (e : Engine) (o : Oracle) (path : String) (flags : Int) :
    Except Errno Int × List FSCall :=
  match enforce_path_hiding e path with
  | some err => (Except.error err, [])
  | none => (o.osOpen path flags, [FSCall.openC path flags])

/-- `DynamicOperations.read`: under the rwlock, `os.lseek` then `os.read`. -/
def readOp (e : Engine) (o : Oracle) (path : String) (size offset fh : Int) :
    Except Errno (List Nat) × List FSCall :=
  match enforce_path_hiding e path with
  | some err => (Except.error err, [])
  | none => (o.readBytes fh size offset, [FSCall.lseekC fh offset, FSCall.readC fh size])

/-- `DynamicOperations.readdir`: list the backing directory and filter each
child name by `is_path_hidden(self._to_absolute_path(name))` — note the
name is resolved against the mount path, not against the listed
directory.  Hidden children are dropped, never an error. -/
def readdirOp (e : Engine) (o : Oracle) (path : String) :
    Except Errno (List String) × List FSCall :=
  match o.listdir path with
  | Except.error err => (Except.error err, [FSCall.listdirC path])
  | Except.ok paths =>
    (Except.ok ([".", ".."] ++
      paths.filter (fun name => !(e.is_path_hidden (to_absolute_path e name)))),
      [FSCall.listdirC path])

/-- `DynamicOperations.readlink`. -/
def readlinkOp (e : Engine) (o : Oracle) (path : String) :
    Except Errno String × List FSCall :=
  match enforce_path_hiding e path with
  | some err => (Except.error err, [])
  | none => (o.readlinkR path, [FSCall.readlinkC path])

/-- `DynamicOperations.rename`: visibility-check the (already resolved) old
path, resolve the new path, then `os.rename`. -/
def renameOp (e : Engine) (o : Oracle) (old_path new_path : String) :
    Except Errno Unit × List FSCall :=
  match enforce_path_hiding e old_path with
  | some err => (Except.error err, [])
  | none =>
    let abs_new_path := to_absolute_path e new_path
    (o.renameR old_path abs_new_path, [FSCall.renameC old_path abs_new_path])

/-- `DynamicOperations.rmdir`. -/
def rmdirOp (e : Engine) (o : Oracle) (path : String) :
    Except Errno Unit × List FSCall :=
  match enforce_path_hiding e path with
  | some err => (Except.error err, [])
  | none => (o.rmdirR path, [FSCall.rmdirC path])

/-- `DynamicOperations.statfs`. -/
def statfsOp (e : Engine) (o : Oracle) (path : String) :
    Except Errno StatVfs × List FSCall :=
  match enforce_path_hiding e path with
  | some err => (Except.error err, [])
  | none => (o.statvfsR path, [FSCall.statvfsC path])

/-- `DynamicOperations.symlink`: `symlink(target, source)` resolves the
source and visibility-checks it, then calls `os.symlink(abs_source, target)`. -/
def symlinkOp (e : Engine) (o : Oracle) (target source : String) :
    Except Errno Unit × List FSCall :=
  let abs_source := to_absolute_path e source
  match enforce_path_hiding e abs_source with
  | some err => (Except.error err, [])
  | none => (o.symlinkR abs_source target, [FSCall.symlinkC abs_source target])

/-- `DynamicOperations.truncate`. -/
def truncateOp (e : Engine) (o : Oracle) (path : String) (length : Int) :
    Except Errno Unit × List FSCall :=
  match enforce_path_hiding e path with
  | some err => (Except.error err, [])
  | none => (o.truncateR path length, [FSCall.truncateC path length])

/-- `DynamicOperations.unlink`. -/
def unlinkOp (e : Engine) (o : Oracle) (path : String) :
    Except Errno Unit × List FSCall :=
  match enforce_path_hiding e path with
  | some err => (Except.error err, [])
  | none => (o.unlinkR path, [FSCall.unlinkC path])

/-- `DynamicOperations.utimens`. -/
def utimensOp (e : Engine) (o : Oracle) (path : String) (times : Option (Int × Int)) :
    Except Errno Unit × List FSCall :=
  match enforce_path_hiding e path with
  | some err => (Except.error err, [])
  | none => (o.utimeR path times, [FSCall.utimeC path times])

/-- `DynamicOperations.write`: under the rwlock, `os.lseek` then `os.write`. -/
def writeOp (e : Engine) (o : Oracle) (path : String) (data : List Nat) (offset fh : Int) :
    Except Errno Int × List FSCall :=
  match enforce_path_hiding e path with
  | some err => (Except.error err, [])
  | none => (o.writeBytes fh data offset, [FSCall.lseekC fh offset, FSCall.writeC fh data])

/-! ## Read-count model of path resolution (dispatch and the shared `_subpath`)

`DynamicOperations.subpath` is a property whose getter performs exactly one
read of the shared attribute `self._subpath`; the listener thread may swap
that attribute between any two reads.  The functions below re-run the
resolution code of `__call__` / `mountpath` / `_to_absolute_path` /
`_enforce_path_hiding` / `rename` with an explicit read counter: `reads n`
is the value of `self._subpath` returned by the n-th attribute read the
operation performs, and each function returns the advanced counter. -/

/-- The resolved backing path as a pure function of one subpath snapshot:
`normalize(join(root, sub, stripLeadingSlash(p)))`. -/
def resolveWith (root sub p : String) : String :=
  normpath (joinPath (joinPath root sub) (lstripSlash p))

/-- One read of `self._subpath` (the `subpath` property getter). -/
def read_subpathR (reads : Nat → String) (n : Nat) : String × Nat :=
  (reads n, n + 1)

/-- `DynamicOperations.mountpath` with explicit subpath reads. -/
def mountpathR (root : String) (reads : Nat → String) (n : Nat) : String × Nat :=
  let r := read_subpathR reads n
  (joinPath root r.1, r.2)

/-- `DynamicOperations._to_absolute_path` with explicit subpath reads. -/
def to_absolute_pathR (root : String) (reads : Nat → String) (path : String)
    (n : Nat) : String × Nat :=
  let m := mountpathR root reads n
  (normpath (joinPath m.1 (lstripSlash path)), m.2)

/-- `DynamicOperations._enforce_path_hiding` with explicit subpath reads
(it recomputes `os.path.normpath(self.mountpath)` itself). -/
def enforce_path_hidingR (root : String) (reads : Nat → String)
    (preventRoot : Bool) (hidden : String → Bool) (path : String) (n : Nat) :
    Option Errno × Nat :=
  let m := mountpathR root reads n
  (if (!(preventRoot && (path == normpath m.1))) && hidden path then
      some Errno.ENOENT
    else none, m.2)

/-- `rename` as dispatched by `__call__`, with explicit subpath reads:
`__call__` resolves the old path, the method visibility-checks it and then
resolves the new path itself.  The value is the `(src, dst)` pair handed to
`os.rename`. -/
def renameReadsModel (root : String) (reads : Nat → String) (preventRoot : Bool)
    (hidden : String → Bool) (old_path new_path : String) (n : Nat) :
    Except Errno (String × String) × Nat :=
  let d := to_absolute_pathR root reads old_path n
  let c := enforce_path_hidingR root reads preventRoot hidden d.1 d.2
  match c.1 with
  | some err => (Except.error err, c.2)
  | none =>
    let t := to_absolute_pathR root reads new_path c.2
    (Except.ok (d.1, t.1), t.2)

/-! ## Small-step model of the subpath setter (C5, C6, C10) -/

/-- The two mutable attributes of the mount state: `_subpath` and
`last_subpath_update` (the epoch, modelled as a `Nat` timestamp). -/
structure MState where
  sub : String
  ep : Nat
deriving DecidableEq, Repr

/-- The body of the subpath setter when the normalized value differs from
the current one, split into its two successive attribute assignments
(`self._subpath = new_subpath` and `self.last_subpath_update = now`), each
an atomic step. -/
def subpath_setter_writes (new_subpath : String) (newEp : Nat) :
    List (MState → MState) :=
  [fun s => MState.mk new_subpath s.ep, fun s => MState.mk s.sub newEp]

/-- All states an instantaneous concurrent observer can see while a write
sequence runs: the state before any write and after each write. -/
def observableStates (s0 : MState) (ws : List (MState → MState)) : List MState :=
  List.scanl (fun s w => w s) s0 ws

/-- Side effects of the subpath setter beyond the two attribute writes. -/
inductive SetEffect where
  | makedirs (p : String)
deriving DecidableEq, Repr

/-- The `subpath` property setter (state-level view): normalize the value;
if it differs from the stored `_subpath`, store it, stamp the epoch with
`now`, and `os.makedirs(self.mountpath)`; otherwise do nothing.  (After
construction `_subpath` always exists, so the `hasattr` guard is the
inequality test alone.) -/
def set_subpath (root : String) (st : MState) (value : String) (now : Nat) :
    MState × List SetEffect :=
  let new_subpath := normpath value
  if st.sub ≠ new_subpath then
    (MState.mk new_subpath now, [SetEffect.makedirs (joinPath root new_subpath)])
  else (st, [])

/-! ## The control-channel listener (subpath_updater.py) -/

/-- One line of `SubpathUpdater.listen_for_updates`' inner `for` loop:
strip the line; when non-empty, invoke the installation callback
(`update_subpath`, i.e. the subpath setter) with it.  Returns the new
mount state, the list of callback arguments (one entry per invocation),
and the setter's side effects. -/
def processLine (root : String) (now : Nat) (st : MState) (line : String) :
    MState × List String × List SetEffect :=
  let new_path := pyStrip line
  if new_path ≠ "" then
    let r := set_subpath root st new_path now
    (r.1, [new_path], r.2)
  else (st, [], [])

/-- Environment for `SubpathUpdater._create_pipe`: whether the pipe
directory and the FIFO file currently exist, and whether `os.makedirs` /
`os.mkfifo` raise (`some msg`) or succeed (`none`). -/
structure PipeEnv where
  dirMissing : Bool
  pipeMissing : Bool
  makedirsFail : Option String
  mkfifoFail : Option String

/-- Effects of the listener loop visible outside it. -/
inductive ListenEffect where
  | callback (s : String)
  | logErrorE
  | sleepE (n : Nat)
  | makedirsE
  | mkfifoE
deriving DecidableEq, Repr

/-- `SubpathUpdater._create_pipe`: make the directory if missing, make the
FIFO if missing; either `OSError` is logged and re-raised (`some err`). -/
def create_pipe (env : PipeEnv) : Option String × List ListenEffect :=
  if env.dirMissing then
    match env.makedirsFail with
    | some err => (some err, [ListenEffect.makedirsE])
    | none =>
      if env.pipeMissing then
        match env.mkfifoFail with
        | some err => (some err, [ListenEffect.makedirsE, ListenEffect.mkfifoE])
        | none => (none, [ListenEffect.makedirsE, ListenEffect.mkfifoE])
      else (none, [ListenEffect.makedirsE])
  else
    if env.pipeMissing then
      match env.mkfifoFail with
      | some err => (some err, [ListenEffect.mkfifoE])
      | none => (none, [ListenEffect.mkfifoE])
    else (none, [])

/-- Outcome of one iteration of the `while not self.stop_listening.is_set()`
loop body: either control returns to the loop header, or an exception
escapes `listen_for_updates` and the listener thread dies. -/
inductive IterOutcome where
  | nextIter
  | fatal (err : String)
deriving DecidableEq, Repr

/-- Callback invocations produced by iterating the lines of one pipe open. -/
def callbackEffects (lines : List String) : List ListenEffect :=
  lines.foldl
    (fun acc l =>
      acc ++ (if pyStrip l ≠ "" then [ListenEffect.callback (pyStrip l)] else []))
    []

/-- One iteration of the listener loop body: open the pipe and iterate its
lines; on any exception from open/read, log, `time.sleep(5)`, and call
`_create_pipe()` — whose own failure is not caught and escapes the loop. -/
def listenIteration (openResult : Except String (List String)) (env : PipeEnv) :
    IterOutcome × List ListenEffect :=
  match openResult with
  | Except.ok lines => (IterOutcome.nextIter, callbackEffects lines)
  | Except.error _ =>
    let r := create_pipe env
    match r.1 with
    | none => (IterOutcome.nextIter, ListenEffect.logErrorE :: ListenEffect.sleepE 5 :: r.2)
    | some err2 => (IterOutcome.fatal err2, ListenEffect.logErrorE :: ListenEffect.sleepE 5 :: r.2)

/-! ## Transition system for `stop()` while the listener blocks in open (C8)

`listen_for_updates` checks `stop_listening` only at the `while` header;
`open(self.pipe_path, "r")` on a FIFO blocks until a writer appears.  The
listener is therefore in one of three control points: at the `while`
header (`checkFlag`), blocked inside `open` (`blockedOpen`), or returned
(`exited`).  At step `n`, `writer n` says whether a writer opens the FIFO
(letting the blocked `open` return, after which line iteration ends and
control reaches the `while` header again), and `stopFlag n` says whether
`stop()` has set `stop_listening`.  `stop()`'s `self.thread.join()` returns
exactly when the listener reaches `exited`; only after that does `stop()`
remove the FIFO file. -/

inductive LState where
  | checkFlag
  | blockedOpen
  | exited
deriving DecidableEq, Repr

/-- One atomic step of the listener thread. -/
def listenerStep (writer stopFlag : Nat → Bool) (n : Nat) : LState → LState
  | LState.checkFlag => if stopFlag n then LState.exited else LState.blockedOpen
  | LState.blockedOpen => if writer n then LState.checkFlag else LState.blockedOpen
  | LState.exited => LState.exited

/-- Listener control point after `n` steps, starting blocked in `open`
(the scenario of the claim: the channel currently has no writer). -/
def listenerAt (writer stopFlag : Nat → Bool) : Nat → LState
  | 0 => LState.blockedOpen
  | n + 1 => listenerStep writer stopFlag n (listenerAt writer stopFlag n)

/-! ## Concrete fixtures for witnesses and counterexamples -/

/-- A hiding predicate that hides exactly `/data/s/x`. -/
def hiddenW : String → Bool := fun q => q == "/data/s/x"

/-- Engine fixture: root `/data`, subpath `s`, mount-root protection on. -/
def eW : Engine := Engine.mk "/data" "s" hiddenW true false

/-- Engine fixture for C9: every path hidden, mount-root protection on. -/
def eAllHidden : Engine := Engine.mk "/data" "s" (fun _ => true) true false

/-- Engine fixture for C3: root `/data`, subpath `sub`, hiding exactly the
backing child `/data/sub/d/f` of the listed directory `/data/sub/d`. -/
def eReaddir : Engine :=
  Engine.mk "/data" "sub" (fun q => q == "/data/sub/d/f") true false

/-- Engine fixture for C4: conflict avoidance enabled, everything hidden. -/
def eConflict : Engine := Engine.mk "/data" "s" (fun _ => true) true true

/-- Stat value returned by the fixture oracle. -/
def statW : Stat := Stat.mk 1 2 3 4 5 6 7 8

/-- Statvfs value returned by the fixture oracle. -/
def statvfsW : StatVfs := StatVfs.mk 1 2 3 4 5 6 7 8 9 10

/-- Fixture oracle: every underlying call succeeds; `pathExists` and the
`rename` outcome are parameters so the conflict-handling branches of
`create`/`mkdir`/`mknod` can each be exercised. -/
def mkOracle (ex : Bool) (ren : Except Errno Unit) : Oracle :=
  Oracle.mk
    (fun _ => Except.ok statW)
    (fun _ _ => true)
    (fun _ _ => Except.ok ())
    (fun _ _ _ => Except.ok ())
    (fun _ _ => Except.ok 3)
    (fun _ _ => Except.ok 4)
    (fun _ _ _ => Except.ok [7])
    (fun _ d _ => Except.ok (Int.ofNat d.length))
    (fun _ => Except.ok "lnk")
    (fun _ _ => ren)
    (fun _ _ => Except.ok ())
    (fun _ _ => Except.ok ())
    (fun _ => Except.ok ())
    (fun _ => Except.ok ())
    (fun _ _ => Except.ok ())
    (fun _ _ => Except.ok ())
    (fun _ => Except.ok statvfsW)
    (fun p => if p == "/data/sub/d" then Except.ok ["f"] else Except.ok [])
    (fun _ => ex)
    (fun _ _ => Except.ok ())
    (fun _ _ _ => Except.ok ())
    "20240101000000"

/-- Fixture oracle with no entry at any path. -/
def oW : Oracle := mkOracle false (Except.ok ())

/-- Subpath read stream for the C2 counterexample: the concurrent listener
swaps `_subpath` from `s1` to `s2` after an operation's second read. -/
def c2reads : Nat → String := fun n => if n < 2 then "s1" else "s2"

/-- The hypothesis of the C1 property: the resolved backing path is hidden
by the predicate and is not the protected mount root. -/
def hiddenAndUnprotected (e : Engine) (p : String) : Prop :=
  e.is_path_hidden p = true ∧
    ¬(e.prevent_hiding_root_path = true ∧ p = normpath (mountpath e))

/-! ## Theorems -/

/-- Under a hidden, unprotected path the hiding check raises `ENOENT`. -/
theorem enforce_of_hidden (e : Engine) (p : String)
    (h1 : e.is_path_hidden p = true)
    (h2 : ¬(e.prevent_hiding_root_path = true ∧ p = normpath (mountpath e))) :
    enforce_path_hiding e p = some Errno.ENOENT := by
  have hab : (e.prevent_hiding_root_path && (p == normpath (mountpath e))) = false := by
    cases hx : (e.prevent_hiding_root_path && (p == normpath (mountpath e))) with
    | false => rfl
    | true => exact absurd (by simpa [Bool.and_eq_true, beq_iff_eq] using hx) h2
  simp [enforce_path_hiding, h1, hab]

/-- With mount-root protection on, the hiding check never fires at the
normalized mount path, whatever the predicate says. -/
theorem enforce_none_at_root (e : Engine)
    (hflag : e.prevent_hiding_root_path = true) :
    enforce_path_hiding e (normpath (mountpath e)) = none := by
  simp [enforce_path_hiding, hflag]

/-- C1: for every operation that reveals the existence, content, or
metadata of a path — attribute query, access, open, read, write, readlink,
the source side of rename/symlink/link, unlink, rmdir, truncate, chmod,
chown, utimens, statfs — if the visibility predicate returns true on the
resolved backing path and that path is not the protected mount root, the
operation fails with `ENOENT` and performs no underlying filesystem call
(its `FSCall` trace is empty). -/
theorem C1_hidden_path_operations_fail_enoent
    (e : Engine) (o : Oracle) (p new_path target source : String)
    (mode uid gid flags size offset fh length : Int)
    (data : List Nat) (times : Option (Int × Int))
    (h : hiddenAndUnprotected e p)
    (hs : to_absolute_path e source = p) :
    getattrOp e o p = (Except.error Errno.ENOENT, []) ∧
    accessOp e o p mode = (Except.error Errno.ENOENT, []) ∧
    openOp e o p flags = (Except.error Errno.ENOENT, []) ∧
    readOp e o p size offset fh = (Except.error Errno.ENOENT, []) ∧
    writeOp e o p data offset fh = (Except.error Errno.ENOENT, []) ∧
    readlinkOp e o p = (Except.error Errno.ENOENT, []) ∧
    renameOp e o p new_path = (Except.error Errno.ENOENT, []) ∧
    symlinkOp e o target source = (Except.error Errno.ENOENT, []) ∧
    linkOp e o target source = (Except.error Errno.ENOENT, []) ∧
    unlinkOp e o p = (Except.error Errno.ENOENT, []) ∧
    rmdirOp e o p = (Except.error Errno.ENOENT, []) ∧
    truncateOp e o p length = (Except.error Errno.ENOENT, []) ∧
    chmodOp e o p mode = (Except.error Errno.ENOENT, []) ∧
    chownOp e o p uid gid = (Except.error Errno.ENOENT, []) ∧
    utimensOp e o p times = (Except.error Errno.ENOENT, []) ∧
    statfsOp e o p = (Except.error Errno.ENOENT, []) := by
  obtain ⟨h1, h2⟩ := h
  have henf : enforce_path_hiding e p = some Errno.ENOENT :=
    enforce_of_hidden e p h1 h2
  have henfs : enforce_path_hiding e (to_absolute_path e source) = some Errno.ENOENT := by
    rw [hs]; exact henf
  refine ⟨?_, ?_, ?_, ?_, ?_, ?_, ?_, ?_, ?_, ?_, ?_, ?_, ?_, ?_, ?_, ?_⟩ <;>
    simp [getattrOp, accessOp, openOp, readOp, writeOp, readlinkOp, renameOp,
      symlinkOp, linkOp, unlinkOp, rmdirOp, truncateOp, chmodOp, chownOp,
      utimensOp, statfsOp, henf, henfs]

/-- Witness for C1: a concrete engine hiding `/data/s/x`, with the
hypotheses discharged at that path. -/
theorem C1_witness :
    hiddenAndUnprotected eW "/data/s/x" ∧
    getattrOp eW oW "/data/s/x" = (Except.error Errno.ENOENT, []) ∧
    renameOp eW oW "/data/s/x" "/y" = (Except.error Errno.ENOENT, []) ∧
    linkOp eW oW "/t" "/x" = (Except.error Errno.ENOENT, []) := by
  have h : hiddenAndUnprotected eW "/data/s/x" := by
    constructor
    · decide
    · decide
  have hall := C1_hidden_path_operations_fail_enoent eW oW "/data/s/x" "/y" "/t" "/x"
    0 0 0 0 0 0 0 0 [] none h (by decide)
  exact ⟨h, hall.1, hall.2.2.2.2.2.2.1, hall.2.2.2.2.2.2.2.2.1⟩

/-- Counterexample to C2: a single `rename` operation reads the shared
subpath three times (dispatch resolution, hiding check, target
resolution), not once.  With the listener swapping `s1 → s2` after the
second read, the source argument of `os.rename` resolves under `s1` while
the target resolves under `s2` — the operation does not use a single
snapshot for all its path resolution. -/
theorem C2_counterexample :
    renameReadsModel "/data" c2reads true (fun _ => false) "/a" "/b" 0 =
      (Except.ok (resolveWith "/data" "s1" "/a", resolveWith "/data" "s2" "/b"), 3) ∧
    resolveWith "/data" "s1" "/a" = "/data/s1/a" ∧
    resolveWith "/data" "s2" "/b" = "/data/s2/b" ∧
    c2reads 0 ≠ c2reads 2 := by
  exact ⟨rfl, rfl, rfl, by decide⟩

/-- C2 amended: each single invocation of `_to_absolute_path` reads the
shared subpath exactly once (the counter advances by one) and its result
is a pure function of that one snapshot, so every individual resolved
backing path lies entirely under one subpath value — prefixes of two
different snapshots are never mixed inside one resolved path.  An
operation may however resolve several times (rename's source, hiding
check, and target — see the counterexample), each with its own snapshot. -/
theorem C2_single_snapshot_per_resolution (root : String) (reads : Nat → String)
    (path : String) (n : Nat) :
    to_absolute_pathR root reads path n = (resolveWith root (reads n) path, n + 1) := rfl

/-- Counterexample to C3: listing the backing subdirectory `/data/sub/d`
whose only child `f` has backing path `/data/sub/d/f`, which the
predicate hides.  `readdir` checks the name against
`_to_absolute_path("f") = /data/sub/f` instead, finds it visible, and
returns `f` — the hidden child is not omitted. -/
theorem C3_counterexample :
    eReaddir.is_path_hidden (joinPath "/data/sub/d" "f") = true ∧
    readdirOp eReaddir (mkOracle false (Except.ok ())) "/data/sub/d" =
      (Except.ok [".", "..", "f"], [FSCall.listdirC "/data/sub/d"]) := by
  exact ⟨by decide, rfl⟩

/-- C3 amended: when the backing directory listing succeeds, `readdir`
never fails because of hidden children: it returns the two synthetic
entries `.` and `..` plus exactly those child names for which the
predicate is false at `normpath(join(root, subpath, name))` — each name is
resolved against the active mount root rather than against the listed
directory, which coincides with the child's own backing path only when
the listed directory is the mount root. -/
theorem C3_readdir_filters_against_mountpath (e : Engine) (o : Oracle)
    (path : String) (names : List String)
    (hls : o.listdir path = Except.ok names) :
    readdirOp e o path =
      (Except.ok ([".", ".."] ++
        names.filter (fun name => !(e.is_path_hidden (to_absolute_path e name)))),
        [FSCall.listdirC path]) := by
  simp [readdirOp, hls]

/-- Witness for C3's amended theorem at a concrete directory whose listing
is empty. -/
theorem C3_amended_witness :
    readdirOp eReaddir oW "/x" = (Except.ok [".", ".."], [FSCall.listdirC "/x"]) :=
  C3_readdir_filters_against_mountpath eReaddir oW "/x" [] rfl

/-- C4: for `create`, `mkdir`, and `mknod` with conflict avoidance enabled,
when an entry physically exists at the resolved path and is hidden, the
engine first renames it to the generated unique name (base name plus a
`_timestamp` suffix, extension preserved); a rename failure with `ENOENT`
is swallowed and creation proceeds at the original path, any other rename
failure propagates as the creation's failure and the underlying create
call is never made. -/
theorem C4_hidden_conflict_renamed_aside (e : Engine) (o : Oracle) (p : String)
    (mode dev : Int)
    (hflag : e.prevent_hidden_path_conflicts = true)
    (hex : o.pathExists p = true)
    (hhid : e.is_path_hidden p = true) :
    generate_unique_name p o.nowTimestamp =
      joinPath (pySplit p).1
        ((pySplitext (pySplit p).2).1 ++ "_" ++ o.nowTimestamp ++
          (pySplitext (pySplit p).2).2) ∧
    createOp e o p mode =
      (match o.renameR p (generate_unique_name p o.nowTimestamp) with
       | Except.ok _ =>
         (o.openCreate p mode,
           [FSCall.renameC p (generate_unique_name p o.nowTimestamp),
             FSCall.openCreateC p mode])
       | Except.error err =>
         if err = Errno.ENOENT then
           (o.openCreate p mode,
             [FSCall.renameC p (generate_unique_name p o.nowTimestamp),
               FSCall.openCreateC p mode])
         else
           (Except.error err,
             [FSCall.renameC p (generate_unique_name p o.nowTimestamp)])) ∧
    mkdirOp e o p mode =
      (match o.renameR p (generate_unique_name p o.nowTimestamp) with
       | Except.ok _ =>
         (o.mkdirR p mode,
           [FSCall.renameC p (generate_unique_name p o.nowTimestamp),
             FSCall.mkdirC p mode])
       | Except.error err =>
         if err = Errno.ENOENT then
           (o.mkdirR p mode,
             [FSCall.renameC p (generate_unique_name p o.nowTimestamp),
               FSCall.mkdirC p mode])
         else
           (Except.error err,
             [FSCall.renameC p (generate_unique_name p o.nowTimestamp)])) ∧
    mknodOp e o p mode dev =
      (match o.renameR p (generate_unique_name p o.nowTimestamp) with
       | Except.ok _ =>
         (o.mknodR p mode dev,
           [FSCall.renameC p (generate_unique_name p o.nowTimestamp),
             FSCall.mknodC p mode dev])
       | Except.error err =>
         if err = Errno.ENOENT then
           (o.mknodR p mode dev,
             [FSCall.renameC p (generate_unique_name p o.nowTimestamp),
               FSCall.mknodC p mode dev])
         else
           (Except.error err,
             [FSCall.renameC p (generate_unique_name p o.nowTimestamp)])) := by
  have hname : generate_unique_name p o.nowTimestamp =
      joinPath (pySplit p).1
        ((pySplitext (pySplit p).2).1 ++ "_" ++ o.nowTimestamp ++
          (pySplitext (pySplit p).2).2) := by
    by_cases hext : (pySplitext (pySplit p).2).2 = ""
    · simp [generate_unique_name, hext, String.append_empty]
    · simp [generate_unique_name, hext]
  have hconf : handle_hidden_path_conflict e o p =
      (match o.renameR p (generate_unique_name p o.nowTimestamp) with
       | Except.ok _ =>
         (Except.ok (), [FSCall.renameC p (generate_unique_name p o.nowTimestamp)])
       | Except.error err =>
         if err = Errno.ENOENT then
           (Except.ok (), [FSCall.renameC p (generate_unique_name p o.nowTimestamp)])
         else
           (Except.error err,
             [FSCall.renameC p (generate_unique_name p o.nowTimestamp)])) := by
    simp [handle_hidden_path_conflict, hflag, hex, hhid]
  refine ⟨hname, ?_, ?_, ?_⟩ <;>
  · cases hr : o.renameR p (generate_unique_name p o.nowTimestamp) with
    | ok u => simp [createOp, mkdirOp, mknodOp, hconf, hr]
    | error err =>
      by_cases he : err = Errno.ENOENT <;>
        simp [createOp, mkdirOp, mknodOp, hconf, hr, he]

/-- Witness for C4: creating `/data/s/a.txt` over an existing hidden entry
first renames it to `/data/s/a_20240101000000.txt` (timestamp suffix,
`.txt` preserved); a rename `ENOENT` is swallowed and creation proceeds,
while `EPERM` propagates and suppresses the create call. -/
theorem C4_witness :
    createOp eConflict (mkOracle true (Except.ok ())) "/data/s/a.txt" 438 =
      (Except.ok 4,
        [FSCall.renameC "/data/s/a.txt" "/data/s/a_20240101000000.txt",
          FSCall.openCreateC "/data/s/a.txt" 438]) ∧
    createOp eConflict (mkOracle true (Except.error Errno.ENOENT)) "/data/s/a.txt" 438 =
      (Except.ok 4,
        [FSCall.renameC "/data/s/a.txt" "/data/s/a_20240101000000.txt",
          FSCall.openCreateC "/data/s/a.txt" 438]) ∧
    createOp eConflict (mkOracle true (Except.error Errno.EPERM)) "/data/s/a.txt" 438 =
      (Except.error Errno.EPERM,
        [FSCall.renameC "/data/s/a.txt" "/data/s/a_20240101000000.txt"]) ∧
    "/data/s/a_20240101000000.txt" ≠ "/data/s/a.txt" := by
  refine ⟨?_, ?_, ?_, by decide⟩
  · exact ((C4_hidden_conflict_renamed_aside eConflict
      (mkOracle true (Except.ok ())) "/data/s/a.txt" 438 0 rfl rfl rfl).2.1).trans rfl
  · exact ((C4_hidden_conflict_renamed_aside eConflict
      (mkOracle true (Except.error Errno.ENOENT)) "/data/s/a.txt" 438 0 rfl rfl rfl).2.1).trans rfl
  · exact ((C4_hidden_conflict_renamed_aside eConflict
      (mkOracle true (Except.error Errno.EPERM)) "/data/s/a.txt" 438 0 rfl rfl rfl).2.1).trans rfl

/-- Counterexample to C5: the setter's two attribute writes are separate
atomic steps, so an observer between them sees the new subpath paired with
the old epoch — a state that is neither "old subpath + old epoch" nor
"new subpath + new epoch". -/
theorem C5_counterexample :
    observableStates (MState.mk "s1" 1) (subpath_setter_writes "s2" 2) =
      [MState.mk "s1" 1, MState.mk "s2" 1, MState.mk "s2" 2] ∧
    MState.mk "s2" 1 ≠ MState.mk "s1" 1 ∧
    MState.mk "s2" 1 ≠ MState.mk "s2" 2 := by
  exact ⟨rfl, by decide, by decide⟩

/-- C5 amended: the installation is two successive atomic attribute writes,
subpath first, then epoch.  An instantaneous observer therefore sees
exactly one of "old subpath + old epoch", "new subpath + old epoch", or
"new subpath + new epoch" — in particular never the old subpath together
with the new epoch. -/
theorem C5_subpath_written_before_epoch (s0 : MState) (ns : String) (ne : Nat)
    (hs : ns ≠ s0.sub) (he : ne ≠ s0.ep) :
    observableStates s0 (subpath_setter_writes ns ne) =
      [s0, MState.mk ns s0.ep, MState.mk ns ne] ∧
    ∀ s ∈ observableStates s0 (subpath_setter_writes ns ne),
      ¬(s.sub = s0.sub ∧ s.ep = ne) := by
  have hlist : observableStates s0 (subpath_setter_writes ns ne) =
      [s0, MState.mk ns s0.ep, MState.mk ns ne] := rfl
  refine ⟨hlist, ?_⟩
  intro s hmem
  rw [hlist] at hmem
  simp only [List.mem_cons, List.not_mem_nil, or_false] at hmem
  rcases hmem with h | h | h
  · subst h; rintro ⟨-, h2⟩; exact he h2.symm
  · subst h; rintro ⟨h1, -⟩; exact hs h1
  · subst h; rintro ⟨h1, -⟩; exact hs h1

/-- Witness for C5's amended theorem at a concrete swap `s1/1 → s2/2`. -/
theorem C5_witness :
    observableStates (MState.mk "s1" 1) (subpath_setter_writes "s2" 2) =
      [MState.mk "s1" 1, MState.mk "s2" 1, MState.mk "s2" 2] :=
  (C5_subpath_written_before_epoch (MState.mk "s1" 1) "s2" 2 (by decide) (by decide)).1

/-- The subpath setter, branch-free: no-op when the normalized value equals
the stored subpath, otherwise store it, stamp the epoch, and make the new
mount directory. -/
theorem set_subpath_eq (root : String) (st : MState) (value : String) (now : Nat) :
    set_subpath root st value now =
      (if st.sub = normpath value then (st, [])
       else (MState.mk (normpath value) now,
         [SetEffect.makedirs (joinPath root (normpath value))])) := by
  by_cases h : st.sub = normpath value
  · simp [set_subpath, h]
  · simp [set_subpath, h]

/-- Counterexample to C6: the accepted line `"a"` (with the current
subpath already `a`) is trimmed non-empty and the installation callback
runs exactly once, yet neither the subpath nor the epoch is mutated and no
directory is created — not "each mutated exactly once per accepted
message". -/
theorem C6_counterexample :
    processLine "/data" 5 (MState.mk "a" 0) "a\n" = (MState.mk "a" 0, ["a"], []) := rfl

/-- C6 amended: a line that is empty after trimming causes no callback and
no mutation; a non-empty trimmed line causes exactly one synchronous
callback with the trimmed string, and the subpath and epoch are both
mutated (exactly once each, with the mount directory created) precisely
when the trimmed line's normalized form differs from the current subpath —
otherwise the accepted message mutates nothing. -/
theorem C6_line_processing (root : String) (now : Nat) (st : MState) (line : String) :
    (pyStrip line = "" → processLine root now st line = (st, [], [])) ∧
    (pyStrip line ≠ "" →
      processLine root now st line =
        ((set_subpath root st (pyStrip line) now).1, [pyStrip line],
          (set_subpath root st (pyStrip line) now).2) ∧
      (normpath (pyStrip line) = st.sub →
        processLine root now st line = (st, [pyStrip line], [])) ∧
      (normpath (pyStrip line) ≠ st.sub →
        processLine root now st line =
          (MState.mk (normpath (pyStrip line)) now, [pyStrip line],
            [SetEffect.makedirs (joinPath root (normpath (pyStrip line)))]))) := by
  constructor
  · intro h; simp [processLine, h]
  · intro h
    refine ⟨by simp [processLine, h], ?_, ?_⟩
    · intro heq
      simp [processLine, h, set_subpath_eq, heq]
    · intro hne
      simp [processLine, h, set_subpath_eq, Ne.symm hne]

/-- Witness for C6's amended theorem: the line `" b \n"` is trimmed to
`b`, invokes the callback once, and installs subpath `b` with epoch 7. -/
theorem C6_witness :
    processLine "/data" 7 (MState.mk "a" 0) " b \n" =
      (MState.mk "b" 7, ["b"], [SetEffect.makedirs "/data/b"]) :=
  (((C6_line_processing "/data" 7 (MState.mk "a" 0) " b \n").2
    (by decide)).2.2 (by decide)).trans rfl

/-- Counterexample to C7: a read failure is caught, logged and backed off,
but the recovery's own `mkfifo` raises; that exception escapes
`listen_for_updates`, so the I/O failure ends up fatal to the listener
loop rather than recovered. -/
theorem C7_counterexample :
    listenIteration (Except.error "read failed")
      (PipeEnv.mk false true none (some "mkfifo EACCES")) =
      (IterOutcome.fatal "mkfifo EACCES",
        [ListenEffect.logErrorE, ListenEffect.sleepE 5, ListenEffect.mkfifoE]) := rfl

/-- C7 amended: every I/O failure while opening or reading the control
channel is caught by the listener, which logs, sleeps the fixed 5-unit
backoff, and recreates the channel file if missing; provided that
recreation does not itself raise, the loop continues to the next open and
nothing propagates.  (If recreation raises, the exception escapes the
loop — see the counterexample.)  A successful open simply dispatches the
per-line callbacks. -/
theorem C7_open_read_failures_recovered (err : String) (lines : List String)
    (env : PipeEnv) (hrec : (create_pipe env).1 = none) :
    listenIteration (Except.error err) env =
      (IterOutcome.nextIter,
        ListenEffect.logErrorE :: ListenEffect.sleepE 5 :: (create_pipe env).2) ∧
    listenIteration (Except.ok lines) env =
      (IterOutcome.nextIter, callbackEffects lines) := by
  constructor
  · simp [listenIteration, hrec]
  · rfl

/-- Witness for C7's amended theorem: open fails while the FIFO is missing;
the listener logs, sleeps 5, remakes the FIFO, and continues. -/
theorem C7_witness :
    listenIteration (Except.error "open failed") (PipeEnv.mk false true none none) =
      (IterOutcome.nextIter,
        [ListenEffect.logErrorE, ListenEffect.sleepE 5, ListenEffect.mkfifoE]) :=
  ((C7_open_read_failures_recovered "open failed" []
    (PipeEnv.mk false true none none) rfl).1).trans rfl

/-- Counterexample to C8: with `stop_listening` set at every step but no
writer ever opening the FIFO, the listener never leaves the blocked
`open`, so it never exits and `stop()`'s `join()` never returns — `stop()`
does not terminate in the very scenario the claim covers. -/
theorem C8_counterexample :
    ¬ ∃ n, listenerAt (fun _ => false) (fun _ => true) n = LState.exited := by
  rintro ⟨n, hn⟩
  have hall : ∀ m, listenerAt (fun _ => false) (fun _ => true) m = LState.blockedOpen := by
    intro m
    induction m with
    | zero => rfl
    | succ k ih => simp [listenerAt, listenerStep, ih]
  rw [hall n] at hn
  exact absurd hn (by decide)

/-- C8 amended: after `stop()` sets the flag, the listener exits (and hence
`join()` returns and the FIFO is removed) as soon as its current blocking
`open` completes — within two steps of a writer appearing; but if no
writer ever appears the blocked `open` never returns and `stop()` blocks
indefinitely (see the counterexample). -/
theorem C8_stop_terminates_when_open_returns (writer : Nat → Bool) (k : Nat)
    (hw : writer k = true) :
    listenerAt writer (fun _ => true) (k + 2) = LState.exited := by
  have hstep : listenerAt writer (fun _ => true) (k + 2) =
      listenerStep writer (fun _ => true) (k + 1)
        (listenerAt writer (fun _ => true) (k + 1)) := rfl
  cases hck : listenerAt writer (fun _ => true) k with
  | checkFlag =>
    have h1 : listenerAt writer (fun _ => true) (k + 1) = LState.exited := by
      simp [listenerAt, listenerStep, hck]
    rw [hstep, h1]
    rfl
  | blockedOpen =>
    have h1 : listenerAt writer (fun _ => true) (k + 1) = LState.checkFlag := by
      simp [listenerAt, listenerStep, hck, hw]
    rw [hstep, h1]
    rfl
  | exited =>
    have h1 : listenerAt writer (fun _ => true) (k + 1) = LState.exited := by
      simp [listenerAt, listenerStep, hck]
    rw [hstep, h1]
    rfl

/-- Witness for C8's amended theorem: a writer opens the FIFO immediately,
and the listener has exited by step 2. -/
theorem C8_witness :
    listenerAt (fun _ => true) (fun _ => true) 2 = LState.exited :=
  C8_stop_terminates_when_open_returns (fun _ => true) 0 rfl

/-- C9: with `preventHidingMountRoot` set, no visibility-checked operation
whose resolved path equals the active mount root (the normalized
`root/activeSubpath`) fails with "not found" because of the visibility
predicate — whatever the predicate returns there, every such operation
reduces to its underlying delegation. -/
theorem C9_mount_root_never_hidden (e : Engine) (o : Oracle)
    (p new_path target source : String)
    (mode uid gid flags size offset fh length : Int)
    (data : List Nat) (times : Option (Int × Int))
    (hflag : e.prevent_hiding_root_path = true)
    (hp : p = normpath (mountpath e))
    (hs : to_absolute_path e source = p) :
    enforce_path_hiding e p = none ∧
    getattrOp e o p = (o.lstat p, [FSCall.lstatC p]) ∧
    accessOp e o p mode =
      (if !(o.accessOk p mode) then (Except.error Errno.EACCES, [FSCall.accessC p mode])
       else (Except.ok (), [FSCall.accessC p mode])) ∧
    openOp e o p flags = (o.osOpen p flags, [FSCall.openC p flags]) ∧
    readOp e o p size offset fh =
      (o.readBytes fh size offset, [FSCall.lseekC fh offset, FSCall.readC fh size]) ∧
    writeOp e o p data offset fh =
      (o.writeBytes fh data offset, [FSCall.lseekC fh offset, FSCall.writeC fh data]) ∧
    readlinkOp e o p = (o.readlinkR p, [FSCall.readlinkC p]) ∧
    renameOp e o p new_path =
      (o.renameR p (to_absolute_path e new_path),
        [FSCall.renameC p (to_absolute_path e new_path)]) ∧
    symlinkOp e o target source = (o.symlinkR p target, [FSCall.symlinkC p target]) ∧
    linkOp e o target source = (o.linkR p target, [FSCall.linkC p target]) ∧
    unlinkOp e o p = (o.unlinkR p, [FSCall.unlinkC p]) ∧
    rmdirOp e o p = (o.rmdirR p, [FSCall.rmdirC p]) ∧
    truncateOp e o p length = (o.truncateR p length, [FSCall.truncateC p length]) ∧
    chmodOp e o p mode = (o.chmod p mode, [FSCall.chmodC p mode]) ∧
    chownOp e o p uid gid = (o.chown p uid gid, [FSCall.chownC p uid gid]) ∧
    utimensOp e o p times = (o.utimeR p times, [FSCall.utimeC p times]) ∧
    statfsOp e o p = (o.statvfsR p, [FSCall.statvfsC p]) := by
  have henf : enforce_path_hiding e p = none := by
    rw [hp]; exact enforce_none_at_root e hflag
  have henfs : enforce_path_hiding e (to_absolute_path e source) = none := by
    rw [hs]; exact henf
  refine ⟨henf, ?_, ?_, ?_, ?_, ?_, ?_, ?_, ?_, ?_, ?_, ?_, ?_, ?_, ?_, ?_, ?_⟩ <;>
    simp [getattrOp, accessOp, openOp, readOp, writeOp, readlinkOp, renameOp,
      symlinkOp, linkOp, unlinkOp, rmdirOp, truncateOp, chmodOp, chownOp,
      utimensOp, statfsOp, henf, henfs, hs]

/-- Witness for C9: an engine whose predicate hides every path still serves
`getattr` and `open` at the active mount root `/data/s`. -/
theorem C9_witness :
    eAllHidden.is_path_hidden "/data/s" = true ∧
    getattrOp eAllHidden oW "/data/s" = (Except.ok statW, [FSCall.lstatC "/data/s"]) ∧
    openOp eAllHidden oW "/data/s" 0 = (Except.ok 3, [FSCall.openC "/data/s" 0]) := by
  have h := C9_mount_root_never_hidden eAllHidden oW "/data/s" "/y" "/t" "/"
    0 0 0 0 0 0 0 0 [] none rfl (by decide) (by decide)
  exact ⟨rfl, h.2.1.trans rfl, h.2.2.2.1.trans rfl⟩

/-- C10: setting the subpath to a value whose normalized form equals the
current subpath is a no-op — stored subpath, epoch, and backing filesystem
(no `makedirs`) are all unchanged; a value with a different normalized
form stores that normalized value, stamps the epoch, and creates the new
mount directory. -/
theorem C10_setter_noop_on_equal_normalization (root : String) (st : MState)
    (value : String) (now : Nat) :
    (normpath value = st.sub → set_subpath root st value now = (st, [])) ∧
    (normpath value ≠ st.sub →
      set_subpath root st value now =
        (MState.mk (normpath value) now,
          [SetEffect.makedirs (joinPath root (normpath value))])) := by
  constructor
  · intro h; simp [set_subpath_eq, h]
  · intro h; simp [set_subpath_eq, Ne.symm h]

/-- Witness for C10: `a/` normalizes to the current subpath `a` and changes
nothing; `b` differs and is installed with a fresh epoch and `makedirs`. -/
theorem C10_witness :
    set_subpath "/data" (MState.mk "a" 3) "a/" 9 = (MState.mk "a" 3, []) ∧
    set_subpath "/data" (MState.mk "a" 3) "b" 9 =
      (MState.mk "b" 9, [SetEffect.makedirs "/data/b"]) := by
  refine ⟨?_, ?_⟩
  · exact (C10_setter_noop_on_equal_normalization "/data" (MState.mk "a" 3) "a/" 9).1
      (by decide)
  · exact ((C10_setter_noop_on_equal_normalization "/data" (MState.mk "a" 3) "b" 9).2
      (by decide)).trans rfl
